import Mathlib

/-!
Shallow embedding of the order-mirroring engine of the MultiExchange
copy-trading bot (source file `binance_config.py`).

Python strings are modelled as Lean `String`; optional values (`None`) as
`Option String`.  Python truthiness of such an optional string is `pyStrTruthy`
(falsy exactly for `None` and the empty string).  Numeric conversions
(`float(x)`) are modelled as the identity on the underlying string, except that
`float(None)` raises, which is modelled as the corresponding error path.
External venue calls (`futures_create_order`, ccxt `create_order`) are
modelled by oracle functions passed as parameters; the list of calls made is
returned so that "no order was submitted" is expressible.
-/

namespace MirrorBot

/-- Python truthiness of a `str | None` value: `None` and `""` are falsy. -/
def pyStrTruthy : Option String → Bool
  | none => false
  | some s => !(s == "")

/-- Python `str.upper()`, character by character (the tokens involved are
ASCII). -/
def strUpper (s : String) : String := ⟨s.data.map Char.toUpper⟩

/-- Python `str.lower()`, character by character. -/
def strLower (s : String) : String := ⟨s.data.map Char.toLower⟩

/-- Python `str.endswith(p)`. -/
def strEndsWith (s p : String) : Bool := p.data.isSuffixOf s.data

/-- The Python slice `s[:-n]` (empty result when `n` exceeds the length). -/
def strDropRight (s : String) (n : Nat) : String :=
  ⟨s.data.take (s.data.length - n)⟩

/-- `SourceAccountListener._should_mirror_event(order_type, status)`:
`ot = (order_type or '').upper()`, `st = (status or '').upper()`;
MARKET mirrors only on NEW, STOP_MARKET and TAKE_PROFIT_MARKET never mirror,
everything else mirrors only on NEW. -/
def shouldMirrorEvent (order_type status : Option String) : Bool :=
  let ot := strUpper (order_type.getD "")
  let st := strUpper (status.getD "")
  if ot == "MARKET" then st == "NEW"
  else if ot == "STOP_MARKET" || ot == "TAKE_PROFIT_MARKET" then false
  else st == "NEW"

/-- `SourceAccountListener._dedup_key`: the MirrorKey
`f"{exchange_type}:{account_id}:{symbol}:{side}:{(order_type or '').upper()}:{source_order_id}"`. -/
def dedupKey (exchange_type : String) (account_id : Nat) (symbol side : String)
    (order_type : Option String) (source_order_id : Nat) : String :=
  exchange_type ++ ":" ++ toString account_id ++ ":" ++ symbol ++ ":" ++ side
    ++ ":" ++ strUpper (order_type.getD "") ++ ":" ++ toString source_order_id

/-- `PhemexClient.Convert_to_ccxt_symbol`: requires the `USDT` quote suffix,
otherwise raises (`ValueError`, the spec's InvalidSymbolFormat); on success
returns `base + "/USDT:USDT"`. -/
def Convert_to_ccxt_symbol (binance_symbol : String) : Except String String :=
  let quote := "USDT"
  if !(strEndsWith binance_symbol quote) then
    Except.error "InvalidSymbolFormat: symbol does not end with USDT"
  else
    strDropRight binance_symbol quote.length ++ "/" ++ quote ++ ":" ++ quote
      |> Except.ok

/-- `PhemexClient._convert_to_ccxt_order_type`: explicit mapping with a
fallback to the lower-cased original token. -/
def convert_to_ccxt_order_type (binance_order_type : String) : String :=
  if binance_order_type == "MARKET" then "market"
  else if binance_order_type == "LIMIT" then "limit"
  else if binance_order_type == "STOP_MARKET" then "stop"
  else if binance_order_type == "STOP_LIMIT" then "stop_limit"
  else if binance_order_type == "TAKE_PROFIT_MARKET" then "take_profit"
  else if binance_order_type == "TAKE_PROFIT" then "take_profit_limit"
  else if binance_order_type == "TRAILING_STOP_MARKET" then "trailing_stop"
  else strLower binance_order_type

/-- `PhemexClient._convert_to_ccxt_time_in_force`: `None` passes through;
GTC/IOC/FOK map to themselves, GTX to PO, anything else passes through. -/
def convert_to_ccxt_time_in_force (binance_tif : Option String) : Option String :=
  match binance_tif with
  | none => none
  | some t =>
      some (if t == "GTC" then "GTC"
            else if t == "IOC" then "IOC"
            else if t == "FOK" then "FOK"
            else if t == "GTX" then "PO"
            else t)

/-- The venue-specific parameter dict built by `BinanceClient.place_order`.
A `none` field models an absent dict key; `reduceOnly` is only ever set to
`True` in the source, so absence is modelled as `false`. -/
structure BinanceOrderParams where
  symbol : Option String := none
  side : Option String := none
  type : Option String := none
  quantity : Option String := none
  timeInForce : Option String := none
  price : Option String := none
  stopPrice : Option String := none
  reduceOnly : Bool := false
deriving DecidableEq, Repr

/-- The parameter-dict construction inside `BinanceClient.place_order`:
a MARKET literal dict or a LIMIT literal dict (else an empty dict), followed
by the unconditional `if quantity / if price / if stop_price / if reduce_only`
assignments that run for every order type. -/
def binance_place_order_params (symbol side order_type quantity : String)
    (price stop_price : Option String) (time_in_force : Option String)
    (reduce_only : Bool) : BinanceOrderParams :=
  let base : BinanceOrderParams :=
    if order_type == "MARKET" then
      { symbol := some symbol, side := some side, type := some order_type,
        quantity := some quantity, reduceOnly := reduce_only }
    else if order_type == "LIMIT" then
      { symbol := some symbol, side := some side, type := some order_type,
        timeInForce := time_in_force }
    else {}
  let p1 := if !(quantity == "") then { base with quantity := some quantity } else base
  let p2 := if pyStrTruthy price then { p1 with price := price } else p1
  let p3 := if pyStrTruthy stop_price then { p2 with stopPrice := stop_price } else p2
  if reduce_only then { p3 with reduceOnly := true } else p3

/-- Normalized Binance venue reply: `response.get('orderId')`. -/
structure BinanceResponse where
  orderId : Option String
deriving DecidableEq, Repr

/-- `BinanceClient.place_order`: builds the params and submits them; a raised
`BinanceAPIException` (or any other error) is caught and yields `none`.  The
external venue is the oracle `venue`; the submitted parameter set is returned
alongside the reply. -/
def binance_place_order (venue : BinanceOrderParams → Option BinanceResponse)
    (symbol side order_type quantity : String) (price stop_price : Option String)
    (time_in_force : Option String) (reduce_only : Bool) :
    List BinanceOrderParams × Option BinanceResponse :=
  let p := binance_place_order_params symbol side order_type quantity
      price stop_price time_in_force reduce_only
  ([p], venue p)

/-- `BinanceClient.get_leverage`: returns the constant 10 unconditionally. -/
def binance_get_leverage (_symbol : String) : Nat := 10

/-- The ccxt `params` dict built inside `PhemexClient.place_order_ccxt` and
its helper order constructors. -/
structure CcxtParams where
  reduceOnly : Bool := false
  timeInForce : Option String := none
  triggerPrice : Option String := none
  triggerDirection : Option String := none
  triggerType : Option String := none
  posSide : Option String := none
deriving DecidableEq, Repr

/-- One call into the ccxt Phemex client (`create_order` or
`create_stop_order`), i.e. one order submitted to the venue. -/
structure CcxtCall where
  method : String := "create_order"
  symbol : String
  type : String
  side : String
  amount : String
  price : Option String := none
  params : CcxtParams := {}
deriving DecidableEq, Repr

/-- The venue order object returned by a successful ccxt call
(`order['id']`, `order['status']`). -/
structure PhemexVenueOrder where
  id : String
  status : String
deriving DecidableEq, Repr

/-- The normalized result dict of `PhemexClient.place_order_ccxt`:
`success`, `order_id` and `status` on success, `error` on failure. -/
structure PhemexOutcome where
  success : Bool
  order_id : Option String := none
  status : Option String := none
  error : Option String := none
deriving DecidableEq, Repr

/-- A raised exception caught by the `except` block of `place_order_ccxt`:
a failed outcome carrying the message. -/
def phemexFailure (msg : String) : PhemexOutcome :=
  { success := false, error := some msg }

/-- Submit one ccxt call to the venue oracle: a venue error is the raised
exception (caught at the boundary of `place_order_ccxt`), a venue reply is the
success dict.  The call itself was made either way. -/
def runCcxtCall (venue : CcxtCall → Except String PhemexVenueOrder)
    (c : CcxtCall) : List CcxtCall × PhemexOutcome :=
  match venue c with
  | Except.ok o =>
      ([c], { success := true, order_id := some o.id, status := some o.status })
  | Except.error e => ([c], phemexFailure e)

/-- `PhemexClient.create_stop_market_order` (SELL closing a long; trigger on
price descending) and `create_stop_short_order` (BUY closing a short; trigger
ascending), selected by `ccxt_side == "sell"` in the STOP_MARKET branch. -/
def phemexStopMarketCall (phemex_symbol : String) (ccxt_side : String)
    (amount stop_price : String) : CcxtCall :=
  if ccxt_side == "sell" then
    { symbol := phemex_symbol, type := "market", side := "sell", amount := amount,
      params := { triggerPrice := some stop_price,
                  triggerDirection := some "descending",
                  triggerType := some "ByMarkPrice",
                  posSide := some "Merged", reduceOnly := true } }
  else
    { symbol := phemex_symbol, type := "market", side := "buy", amount := amount,
      params := { triggerPrice := some stop_price,
                  triggerDirection := some "ascending",
                  triggerType := some "ByMarkPrice",
                  posSide := some "Merged", reduceOnly := true } }

/-- `PhemexClient.create_take_profit_market_order` (SELL, trigger ascending)
and `create_take_profit_short_order` (BUY, trigger descending), selected by
`ccxt_side == "sell"` in the TAKE_PROFIT_MARKET branch. -/
def phemexTakeProfitCall (phemex_symbol : String) (ccxt_side : String)
    (amount trigger_price : String) : CcxtCall :=
  if ccxt_side == "sell" then
    { symbol := phemex_symbol, type := "market", side := "sell", amount := amount,
      params := { triggerPrice := some trigger_price,
                  triggerDirection := some "ascending",
                  triggerType := some "ByMarkPrice",
                  posSide := some "Merged", reduceOnly := true } }
  else
    { symbol := phemex_symbol, type := "market", side := "buy", amount := amount,
      params := { triggerPrice := some trigger_price,
                  triggerDirection := some "descending",
                  triggerType := some "ByMarkPrice",
                  posSide := some "Merged", reduceOnly := true } }

/-- Python `str(x)` on a `str | None` value (used for `str(stop_price)`). -/
def pyStr : Option String → String
  | none => "None"
  | some s => s

/-- `PhemexClient.place_order_ccxt`: symbol and vocabulary translation, the
shared `params` dict, then the branch on order type.  Returns the list of
ccxt calls submitted together with the outcome dict.  Paths where the Python
code raises before any ccxt call (bad symbol suffix, `float(None)`, a LIMIT
order without a price, `None.lower()`) produce a failure with an empty call
list, matching the enclosing try/except. -/
def place_order_ccxt (venue : CcxtCall → Except String PhemexVenueOrder)
    (symbol side : String) (order_type : Option String) (quantity : String)
    (price stop_price : Option String) (time_in_force : Option String)
    (reduce_only : Bool) : List CcxtCall × PhemexOutcome :=
  match Convert_to_ccxt_symbol symbol with
  | Except.error e => ([], phemexFailure e)
  | Except.ok phemex_symbol =>
    match order_type with
    | none => ([], phemexFailure "AttributeError: NoneType has no attribute lower")
    | some ot =>
      let ccxt_type := convert_to_ccxt_order_type ot
      let ccxt_side := strLower side
      let ccxt_amount := quantity
      let params0 : CcxtParams := {}
      let params1 := if reduce_only then { params0 with reduceOnly := true } else params0
      let params :=
        if pyStrTruthy time_in_force then
          { params1 with timeInForce := convert_to_ccxt_time_in_force time_in_force }
        else params1
      if ccxt_type == "market" then
        runCcxtCall venue
          { symbol := phemex_symbol, type := ccxt_type, side := ccxt_side,
            amount := ccxt_amount }
      else if ccxt_type == "limit" then
        if !(pyStrTruthy price) then
          ([], phemexFailure "Limit order requires price")
        else
          runCcxtCall venue
            { symbol := phemex_symbol, type := "limit", side := ccxt_side,
              amount := ccxt_amount, price := price }
      else if ot == "STOP_MARKET" then
        match stop_price with
        | none => ([], phemexFailure "TypeError: float argument was None")
        | some sp =>
            runCcxtCall venue (phemexStopMarketCall phemex_symbol ccxt_side ccxt_amount sp)
      else if ccxt_type == "stop" then
        let trigger_direction := if ccxt_side == "sell" then "descending" else "ascending"
        runCcxtCall venue
          { symbol := phemex_symbol, type := "market", side := ccxt_side,
            amount := ccxt_amount,
            params := ({ params with
                         triggerPrice := some (pyStr stop_price),
                         triggerDirection := some trigger_direction,
                         triggerType := some "ByMarkPrice",
                         posSide := some "Merged" }) }
      else if ccxt_type == "stop_limit" then
        match price, stop_price with
        | some p, some _sp =>
            runCcxtCall venue
              { method := "create_stop_order", symbol := phemex_symbol,
                type := "limit", side := ccxt_side, amount := ccxt_amount,
                price := some p, params := params }
        | _, _ => ([], phemexFailure "TypeError: float argument was None")
      else if ot == "TAKE_PROFIT_MARKET" then
        match stop_price with
        | none => ([], phemexFailure "TypeError: float argument was None")
        | some sp =>
            runCcxtCall venue (phemexTakeProfitCall phemex_symbol ccxt_side ccxt_amount sp)
      else
        runCcxtCall venue
          { symbol := phemex_symbol, type := ccxt_type, side := ccxt_side,
            amount := ccxt_amount,
            price := if pyStrTruthy price then price else none,
            params := params }

/-- A `SourceOrderEvent` as handed to `process_order_update`: the fields
extracted from the ORDER_TRADE_UPDATE websocket payload, plus the leverage
value the coordinator resolved (hardcoded to 10 in `handle_order_update`).
The mandatory stream fields (symbol, side, quantity) are modelled as present;
the optional ones keep their `str | None` nature. -/
structure MirrorEvent where
  symbol : String
  side : String
  orderType : Option String
  quantity : String
  price : Option String
  stopPrice : Option String
  status : Option String
  sourceOrderId : Nat
  leverage : Nat := 10
  timeInForce : Option String
  reduceOnly : Bool := false

/-- A row of the target-account registry as consumed by the fanout loop,
together with the behaviour of the external world for this account:
`isDict` models the `isinstance(account, dict)` guard; `raisesBeforeExec`
models any exception raised between client construction and the adapter call
(missing credential keys, client init failure) — all of which the per-account
`except` block catches; the two venue oracles answer this account's order
submissions; `dbWriteFails` models an exception inside
`_log_trade_to_database` (database error or a failing float conversion),
which that function catches itself.  `leverageDefault` is the TargetAccount
leverage-default attribute of the spec's data model; the code never reads
any per-account leverage. -/
structure Account where
  isDict : Bool := true
  exchange_type : String := "binance"
  id : Nat
  leverageDefault : Nat := 10
  raisesBeforeExec : Bool := false
  venueB : BinanceOrderParams → Option BinanceResponse
  venueP : CcxtCall → Except String PhemexVenueOrder
  dbWriteFails : Bool := false

/-- `SourceAccountListener._execute_binance_trade`: MARKET submits with only
symbol/side/type/quantity; LIMIT requires a truthy, non-"0" price; every
other order type is rejected without any submission (`return None`). -/
def execute_binance_trade (venue : BinanceOrderParams → Option BinanceResponse)
    (symbol side : String) (order_type : Option String) (quantity : String)
    (price _stop_price : Option String) (time_in_force : Option String)
    (_reduce_only : Bool) : List BinanceOrderParams × Option BinanceResponse :=
  if order_type == some "MARKET" then
    binance_place_order venue symbol side "MARKET" quantity none none (some "GTC") false
  else if order_type == some "LIMIT" then
    if !(pyStrTruthy price) || price == some "0" then ([], none)
    else binance_place_order venue symbol side "LIMIT" quantity price none time_in_force false
  else ([], none)

/-- The normalized reply `_execute_mirror_trade` hands back to the fanout
loop; `orderId` is what `_log_trade_to_database` extracts from the
exchange-specific response shape. -/
structure MirrorResponse where
  orderId : Option String
deriving DecidableEq, Repr

/-- `SourceAccountListener._execute_phemex_trade`: normalizes absent/zero
price and stop price to `None`, calls `place_order_ccxt`, and returns a
code-0 response dict on success — anything else (including a failed outcome,
which falls off the end of the function) yields `None`. -/
def execute_phemex_trade (venue : CcxtCall → Except String PhemexVenueOrder)
    (symbol side : String) (order_type : Option String) (quantity : String)
    (price stop_price time_in_force : Option String) :
    List CcxtCall × Option MirrorResponse :=
  let norm : Option String → Option String := fun x =>
    if pyStrTruthy x && !(x == some "0") then x else none
  let r := place_order_ccxt venue symbol side order_type quantity
      (norm price) (norm stop_price) time_in_force false
  (r.1, if r.2.success then some { orderId := r.2.order_id } else none)

/-- `SourceAccountListener._execute_mirror_trade`: dispatch on the account's
exchange type; its own try/except means it never raises — a failure is
`none`. -/
def execute_mirror_trade (a : Account) (ev : MirrorEvent) : Option MirrorResponse :=
  if a.exchange_type == "binance" then
    (execute_binance_trade a.venueB ev.symbol ev.side ev.orderType ev.quantity
        ev.price ev.stopPrice ev.timeInForce ev.reduceOnly).2.map
      (fun r => { orderId := r.orderId })
  else if a.exchange_type == "phemex" then
    (execute_phemex_trade a.venueP ev.symbol ev.side ev.orderType ev.quantity
        ev.price ev.stopPrice ev.timeInForce).2
  else none

/-- A TradeLedger row as written by `_log_trade_to_database`
(`db.add_trade` / `db.add_phemex_trade`). -/
structure TradeRecord where
  exchange_type : String
  account_id : Nat
  symbol : String
  side : String
  order_type : Option String
  quantity : String
  price : Option String
  stop_price : Option String
  order_id : Option String
  status : String
  source_order_id : Nat
deriving DecidableEq, Repr

/-- The record `_log_trade_to_database` builds for a successful mirror:
price and stop price are stored only when truthy and not "0", the status is
the literal MIRRORED. -/
def mkTradeRecord (a : Account) (ev : MirrorEvent) (resp : MirrorResponse) :
    TradeRecord :=
  { exchange_type := a.exchange_type, account_id := a.id,
    symbol := ev.symbol, side := ev.side, order_type := ev.orderType,
    quantity := ev.quantity,
    price := if pyStrTruthy ev.price && !(ev.price == some "0") then ev.price else none,
    stop_price := if pyStrTruthy ev.stopPrice && !(ev.stopPrice == some "0") then ev.stopPrice else none,
    order_id := resp.orderId, status := "MIRRORED",
    source_order_id := ev.sourceOrderId }

/-- `SourceAccountListener._log_trade_to_database`: appends the record unless
an exception occurs inside it, which its own try/except swallows. -/
def log_trade_to_database (a : Account) (ev : MirrorEvent) (resp : MirrorResponse)
    (ledger : List TradeRecord) : List TradeRecord :=
  if a.dbWriteFails then ledger else mkTradeRecord a ev resp :: ledger

/-- One best-effort `set_leverage` call made by the fanout loop. -/
structure LeverageCall where
  exchange_type : String
  symbol : String
  leverage : Nat
deriving DecidableEq, Repr

/-- The mutable state threaded through one fanout pass of
`process_order_update`: the process-lifetime dedup set and the TradeLedger,
plus the per-pass observables — leverage calls made, adapter attempts made,
and the two summary counters (`successful_mirrors` / `failed_mirrors`). -/
structure PassState where
  dedup : List String
  ledger : List TradeRecord
  leverageCalls : List LeverageCall := []
  attempts : Nat := 0
  successful_mirrors : Nat := 0
  failed_mirrors : Nat := 0

/-- The MirrorKey the loop computes for one (event, account) pair. -/
def mirrorKeyOf (ev : MirrorEvent) (a : Account) : String :=
  dedupKey a.exchange_type a.id ev.symbol ev.side ev.orderType ev.sourceOrderId

/-- The loop body of `process_order_update` for one target account:
format guard, dedup check, exchange dispatch, best-effort leverage, adapter
call, then either mark-seen + ledger write + success count, or failure
count.  Exceptions raised anywhere in the body are caught by the
per-account `except` block, which counts a failure and moves on. -/
def processAccount (ev : MirrorEvent) (st : PassState) (a : Account) : PassState :=
  if !a.isDict then { st with failed_mirrors := st.failed_mirrors + 1 }
  else
    let key := mirrorKeyOf ev a
    if st.dedup.contains key then st
    else if a.exchange_type == "binance" || a.exchange_type == "phemex" then
      if a.raisesBeforeExec then { st with failed_mirrors := st.failed_mirrors + 1 }
      else
        let lev := if a.exchange_type == "binance" then ev.leverage else 10
        let st1 : PassState :=
          { st with
            leverageCalls := { exchange_type := a.exchange_type,
                               symbol := ev.symbol, leverage := lev } :: st.leverageCalls,
            attempts := st.attempts + 1 }
        match execute_mirror_trade a ev with
        | some resp =>
            { st1 with dedup := key :: st1.dedup,
                       ledger := log_trade_to_database a ev resp st1.ledger,
                       successful_mirrors := st1.successful_mirrors + 1 }
        | none => { st1 with failed_mirrors := st1.failed_mirrors + 1 }
    else { st with failed_mirrors := st.failed_mirrors + 1 }

/-- The `for account in all_accounts` loop: a left fold of the body. -/
def processPass (ev : MirrorEvent) (st : PassState) (accounts : List Account) :
    PassState :=
  accounts.foldl (processAccount ev) st

/-- The end-of-pass summary log line: successful mirrors, total accounts,
failed mirrors. -/
structure MirrorSummary where
  successful : Nat
  total : Nat
  failed : Nat
deriving DecidableEq, Repr

/-- `SourceAccountListener.process_order_update`: policy guard, registry
read (`none` models both a `None` and a non-list result, `some []` the empty
registry — each an early return before any mirroring), then the fanout loop
followed by the summary. -/
def process_order_update (ev : MirrorEvent) (dedup0 : List String)
    (ledger0 : List TradeRecord) (accounts : Option (List Account)) :
    PassState × Option MirrorSummary :=
  let init : PassState := { dedup := dedup0, ledger := ledger0 }
  if !(shouldMirrorEvent ev.orderType ev.status) then (init, none)
  else
    match accounts with
    | none => (init, none)
    | some accs =>
        if accs.isEmpty then (init, none)
        else
          let final := processPass ev init accs
          (final, some { successful := final.successful_mirrors,
                         total := accs.length,
                         failed := final.failed_mirrors })

/-- `SourceAccountListener.handle_order_update`: extracts the event fields,
hardcodes `leverage = 10`, applies the mirror policy, and delegates to
`process_order_update` with that leverage. -/
def handle_order_update (symbol side : String) (order_type : Option String)
    (quantity : String) (price stop_price : Option String)
    (status : Option String) (order_id : Nat) (time_in_force : Option String)
    (reduce_only : Bool) (dedup0 : List String) (ledger0 : List TradeRecord)
    (accounts : Option (List Account)) : PassState × Option MirrorSummary :=
  let leverage := 10
  if !(shouldMirrorEvent order_type status) then
    ({ dedup := dedup0, ledger := ledger0 }, none)
  else
    process_order_update
      { symbol := symbol, side := side, orderType := order_type,
        quantity := quantity, price := price, stopPrice := stop_price,
        status := status, sourceOrderId := order_id, leverage := leverage,
        timeInForce := time_in_force, reduceOnly := reduce_only }
      dedup0 ledger0 accounts

/-- The account was not skipped: the loop reached the adapter call for it
(valid dict, MirrorKey unseen, supported exchange, nothing raised before the
call). -/
def mirrorAttemptReached (ev : MirrorEvent) (dedup : List String) (a : Account) : Bool :=
  a.isDict && !(dedup.contains (mirrorKeyOf ev a))
    && (a.exchange_type == "binance" || a.exchange_type == "phemex")
    && !a.raisesBeforeExec

/-- The loop skipped the account because its MirrorKey was already seen. -/
def dedupSkipped (ev : MirrorEvent) (dedup : List String) (a : Account) : Bool :=
  a.isDict && dedup.contains (mirrorKeyOf ev a)

/-- The mirror attempt for this account was made and returned a truthy
adapter response. -/
def mirrorSucceeded (ev : MirrorEvent) (dedup : List String) (a : Account) : Bool :=
  mirrorAttemptReached ev dedup a && (execute_mirror_trade a ev).isSome

/-- Per-account tally of one fanout pass, threading only the dedup set:
first component counts successful mirrors, second counts failed ones
(dedup-skipped accounts count in neither). -/
def passTally (ev : MirrorEvent) : List String → List Account → Nat × Nat
  | _, [] => (0, 0)
  | dedup, a :: rest =>
      let s := if mirrorSucceeded ev dedup a then 1 else 0
      let f := if !(mirrorSucceeded ev dedup a) && !(dedupSkipped ev dedup a) then 1 else 0
      let t := passTally ev
        (if mirrorSucceeded ev dedup a then mirrorKeyOf ev a :: dedup else dedup) rest
      (s + t.1, f + t.2)

/-- The `set_leverage` call the loop makes for one account: the literal 10
for Phemex, the event's resolved leverage value for Binance. -/
def leverageCallOf (ev : MirrorEvent) (a : Account) : LeverageCall :=
  { exchange_type := a.exchange_type, symbol := ev.symbol,
    leverage := if a.exchange_type == "binance" then ev.leverage else 10 }

/- ### Concrete fixtures used to instantiate the theorems -/

/-- A Binance venue that accepts every order. -/
def venueAlwaysOkB : BinanceOrderParams → Option BinanceResponse :=
  fun _ => some { orderId := some "101" }

/-- A Binance venue that rejects every order (network/auth failure). -/
def venueDownB : BinanceOrderParams → Option BinanceResponse := fun _ => none

/-- A Phemex venue that accepts every order. -/
def venueAlwaysOkP : CcxtCall → Except String PhemexVenueOrder :=
  fun _ => Except.ok { id := "201", status := "closed" }

/-- A Phemex venue that raises on every order. -/
def venueDownP : CcxtCall → Except String PhemexVenueOrder :=
  fun _ => Except.error "network error"

/-- A NEW MARKET source event for BTCUSDT. -/
def sampleMarketEvent : MirrorEvent :=
  { symbol := "BTCUSDT", side := "BUY", orderType := some "MARKET",
    quantity := "0.01", price := none, stopPrice := none, status := some "NEW",
    sourceOrderId := 7, leverage := 10, timeInForce := some "GTC",
    reduceOnly := false }

/-- A healthy Binance target account. -/
def sampleAccount : Account :=
  { id := 1, venueB := venueAlwaysOkB, venueP := venueAlwaysOkP }

/-- A Binance target account whose venue rejects orders. -/
def sampleFailingAccount : Account :=
  { id := 2, venueB := venueDownB, venueP := venueDownP }

/-- A healthy Binance target account whose TradeLedger write fails. -/
def sampleDbFailAccount : Account :=
  { id := 3, venueB := venueAlwaysOkB, venueP := venueAlwaysOkP,
    dbWriteFails := true }

/-- An initial pass state: empty dedup set and ledger. -/
def emptyPass : PassState := { dedup := [], ledger := [] }

/- ### Branch lemmas for the loop body -/

theorem processAccount_of_skip (ev : MirrorEvent) (st : PassState) (a : Account)
    (h : dedupSkipped ev st.dedup a = true) : processAccount ev st a = st := by
  simp only [dedupSkipped, Bool.and_eq_true] at h
  obtain ⟨h1, h2⟩ := h
  have h2m : mirrorKeyOf ev a ∈ st.dedup := by simpa using h2
  simp [processAccount, h1, h2m]

theorem processAccount_of_success (ev : MirrorEvent) (st : PassState) (a : Account)
    (resp : MirrorResponse) (h : mirrorAttemptReached ev st.dedup a = true)
    (h5 : execute_mirror_trade a ev = some resp) :
    processAccount ev st a =
      { st with dedup := mirrorKeyOf ev a :: st.dedup,
                ledger := log_trade_to_database a ev resp st.ledger,
                leverageCalls := leverageCallOf ev a :: st.leverageCalls,
                attempts := st.attempts + 1,
                successful_mirrors := st.successful_mirrors + 1 } := by
  simp only [mirrorAttemptReached, Bool.and_eq_true, Bool.not_eq_true',
    Bool.or_eq_true] at h
  obtain ⟨⟨⟨h1, h2⟩, h3⟩, h4⟩ := h
  have h2m : mirrorKeyOf ev a ∉ st.dedup := by simpa using h2
  simp [processAccount, leverageCallOf, h1, h2m, h3, h4, h5]
  intro hb
  rcases h3 with h3 | h3
  · exact absurd (eq_of_beq h3) hb
  · exact eq_of_beq h3

theorem processAccount_of_failed_attempt (ev : MirrorEvent) (st : PassState)
    (a : Account) (h : mirrorAttemptReached ev st.dedup a = true)
    (h5 : execute_mirror_trade a ev = none) :
    processAccount ev st a =
      { st with leverageCalls := leverageCallOf ev a :: st.leverageCalls,
                attempts := st.attempts + 1,
                failed_mirrors := st.failed_mirrors + 1 } := by
  simp only [mirrorAttemptReached, Bool.and_eq_true, Bool.not_eq_true',
    Bool.or_eq_true] at h
  obtain ⟨⟨⟨h1, h2⟩, h3⟩, h4⟩ := h
  have h2m : mirrorKeyOf ev a ∉ st.dedup := by simpa using h2
  simp [processAccount, leverageCallOf, h1, h2m, h3, h4, h5]
  intro hb
  rcases h3 with h3 | h3
  · exact absurd (eq_of_beq h3) hb
  · exact eq_of_beq h3

theorem processAccount_of_no_attempt (ev : MirrorEvent) (st : PassState)
    (a : Account) (h : mirrorAttemptReached ev st.dedup a = false)
    (hskip : dedupSkipped ev st.dedup a = false) :
    processAccount ev st a = { st with failed_mirrors := st.failed_mirrors + 1 } := by
  cases h1 : a.isDict
  · simp [processAccount, h1]
  · by_cases h2 : mirrorKeyOf ev a ∈ st.dedup
    · exfalso
      simp [dedupSkipped, h1, h2] at hskip
    · cases h3 : (a.exchange_type == "binance" || a.exchange_type == "phemex")
      · simp [processAccount, h1, h2, h3]
      · cases h4 : a.raisesBeforeExec
        · exfalso
          simp [mirrorAttemptReached, h1, h2, h3, h4] at h
        · simp [processAccount, h1, h2, h3, h4]

/-- The dedup set after one loop body: extended by the account's MirrorKey
exactly when the mirror succeeded. -/
theorem processAccount_dedup (ev : MirrorEvent) (st : PassState) (a : Account) :
    (processAccount ev st a).dedup =
      if mirrorSucceeded ev st.dedup a then mirrorKeyOf ev a :: st.dedup
      else st.dedup := by
  cases h1 : a.isDict
  · simp [processAccount, mirrorSucceeded, mirrorAttemptReached, h1]
  · by_cases h2 : mirrorKeyOf ev a ∈ st.dedup
    · simp [processAccount, mirrorSucceeded, mirrorAttemptReached, h1, h2]
    · cases h3 : (a.exchange_type == "binance" || a.exchange_type == "phemex")
      · simp [processAccount, mirrorSucceeded, mirrorAttemptReached, h1, h2, h3]
      · cases h4 : a.raisesBeforeExec
        · cases h5 : execute_mirror_trade a ev
          · simp [processAccount, mirrorSucceeded, mirrorAttemptReached, h1, h2, h3, h4, h5]
          · simp [processAccount, mirrorSucceeded, mirrorAttemptReached, h1, h2, h3, h4, h5]
        · simp [processAccount, mirrorSucceeded, mirrorAttemptReached, h1, h2, h3, h4]

/-- Processing one account can only add that account's own MirrorKey:
membership of any other key is untouched. -/
theorem processAccount_dedup_mem_other (ev : MirrorEvent) (st : PassState)
    (a : Account) (k : String) (hne : k ≠ mirrorKeyOf ev a) :
    (k ∈ (processAccount ev st a).dedup) ↔ (k ∈ st.dedup) := by
  rw [processAccount_dedup]
  by_cases hs : mirrorSucceeded ev st.dedup a = true
  · simp [hs, List.mem_cons, hne]
  · simp [hs]

/-- `mirrorAttemptReached` depends on the dedup set only through membership
of the account's own MirrorKey. -/
theorem mirrorAttemptReached_congr (ev : MirrorEvent) (d1 d2 : List String)
    (a : Account) (h : (mirrorKeyOf ev a ∈ d1) ↔ (mirrorKeyOf ev a ∈ d2)) :
    mirrorAttemptReached ev d1 a = mirrorAttemptReached ev d2 a := by
  unfold mirrorAttemptReached
  by_cases hm : mirrorKeyOf ev a ∈ d1
  · have hm2 := h.mp hm
    simp [hm, hm2]
  · have hm2 : mirrorKeyOf ev a ∉ d2 := fun hx => hm (h.mpr hx)
    simp [hm, hm2]

/-- `mirrorSucceeded` depends on the dedup set only through membership of the
account's own MirrorKey. -/
theorem mirrorSucceeded_congr (ev : MirrorEvent) (d1 d2 : List String)
    (a : Account) (h : (mirrorKeyOf ev a ∈ d1) ↔ (mirrorKeyOf ev a ∈ d2)) :
    mirrorSucceeded ev d1 a = mirrorSucceeded ev d2 a := by
  unfold mirrorSucceeded
  rw [mirrorAttemptReached_congr ev d1 d2 a h]

/-- Running the loop over a list of accounts none of which shares `b`'s
MirrorKey leaves the membership status of `b`'s key unchanged. -/
theorem processPass_dedup_mem_other (ev : MirrorEvent) (b : Account) :
    ∀ (pre : List Account) (st : PassState),
      (∀ a ∈ pre, mirrorKeyOf ev a ≠ mirrorKeyOf ev b) →
      ((mirrorKeyOf ev b ∈ (processPass ev st pre).dedup) ↔
        (mirrorKeyOf ev b ∈ st.dedup))
  | [], st, _ => Iff.rfl
  | a :: rest, st, hk => by
      have hne : mirrorKeyOf ev b ≠ mirrorKeyOf ev a :=
        fun h => (hk a (List.mem_cons_self a rest)) h.symm
      have ih := processPass_dedup_mem_other ev b rest (processAccount ev st a)
        (fun x hx => hk x (List.mem_cons_of_mem a hx))
      calc (mirrorKeyOf ev b ∈ (processPass ev (processAccount ev st a) rest).dedup)
          ↔ (mirrorKeyOf ev b ∈ (processAccount ev st a).dedup) := ih
        _ ↔ (mirrorKeyOf ev b ∈ st.dedup) :=
            processAccount_dedup_mem_other ev st a (mirrorKeyOf ev b) hne

/-- The success counter after one loop body. -/
theorem processAccount_successful (ev : MirrorEvent) (st : PassState) (a : Account) :
    (processAccount ev st a).successful_mirrors =
      st.successful_mirrors + (if mirrorSucceeded ev st.dedup a then 1 else 0) := by
  cases h1 : a.isDict
  · simp [processAccount, mirrorSucceeded, mirrorAttemptReached, h1]
  · by_cases h2 : mirrorKeyOf ev a ∈ st.dedup
    · simp [processAccount, mirrorSucceeded, mirrorAttemptReached, h1, h2]
    · cases h3 : (a.exchange_type == "binance" || a.exchange_type == "phemex")
      · simp [processAccount, mirrorSucceeded, mirrorAttemptReached, h1, h2, h3]
      · cases h4 : a.raisesBeforeExec
        · cases h5 : execute_mirror_trade a ev
          · simp [processAccount, mirrorSucceeded, mirrorAttemptReached, h1, h2, h3, h4, h5]
          · simp [processAccount, mirrorSucceeded, mirrorAttemptReached, h1, h2, h3, h4, h5]
        · simp [processAccount, mirrorSucceeded, mirrorAttemptReached, h1, h2, h3, h4]

/-- The failure counter after one loop body: it counts exactly the accounts
that neither succeeded nor were dedup-skipped. -/
theorem processAccount_failed (ev : MirrorEvent) (st : PassState) (a : Account) :
    (processAccount ev st a).failed_mirrors =
      st.failed_mirrors +
        (if !(mirrorSucceeded ev st.dedup a) && !(dedupSkipped ev st.dedup a)
         then 1 else 0) := by
  cases h1 : a.isDict
  · simp [processAccount, mirrorSucceeded, mirrorAttemptReached, dedupSkipped, h1]
  · by_cases h2 : mirrorKeyOf ev a ∈ st.dedup
    · simp [processAccount, mirrorSucceeded, mirrorAttemptReached, dedupSkipped, h1, h2]
    · cases h3 : (a.exchange_type == "binance" || a.exchange_type == "phemex")
      · simp [processAccount, mirrorSucceeded, mirrorAttemptReached, dedupSkipped, h1, h2, h3]
      · cases h4 : a.raisesBeforeExec
        · cases h5 : execute_mirror_trade a ev
          · simp [processAccount, mirrorSucceeded, mirrorAttemptReached, dedupSkipped,
              h1, h2, h3, h4, h5]
          · simp [processAccount, mirrorSucceeded, mirrorAttemptReached, dedupSkipped,
              h1, h2, h3, h4, h5]
        · simp [processAccount, mirrorSucceeded, mirrorAttemptReached, dedupSkipped,
            h1, h2, h3, h4]

/-- The two summary counters of a full pass are the per-account tallies. -/
theorem processPass_counts (ev : MirrorEvent) :
    ∀ (accs : List Account) (st : PassState),
      (processPass ev st accs).successful_mirrors =
          st.successful_mirrors + (passTally ev st.dedup accs).1 ∧
      (processPass ev st accs).failed_mirrors =
          st.failed_mirrors + (passTally ev st.dedup accs).2
  | [], st => by simp [processPass, passTally]
  | a :: rest, st => by
      have ih := processPass_counts ev rest (processAccount ev st a)
      have hstep : processPass ev st (a :: rest) =
          processPass ev (processAccount ev st a) rest := rfl
      rw [hstep]
      have hd := processAccount_dedup ev st a
      have hs := processAccount_successful ev st a
      have hf := processAccount_failed ev st a
      constructor
      · rw [ih.1, hs, hd]
        simp only [passTally]
        omega
      · rw [ih.2, hf, hd]
        simp only [passTally]
        omega

/-- Any leverage call present after one loop body is either the one this
account triggered or was already present. -/
theorem processAccount_leverageCalls_mem (ev : MirrorEvent) (st : PassState)
    (a : Account) (c : LeverageCall)
    (hc : c ∈ (processAccount ev st a).leverageCalls) :
    c = leverageCallOf ev a ∨ c ∈ st.leverageCalls := by
  revert hc
  cases h1 : a.isDict
  · intro hc
    right
    simpa [processAccount, h1] using hc
  · by_cases h2 : mirrorKeyOf ev a ∈ st.dedup
    · intro hc
      right
      simpa [processAccount, h1, h2] using hc
    · cases h3 : (a.exchange_type == "binance" || a.exchange_type == "phemex")
      · intro hc
        right
        simpa [processAccount, h1, h2, h3] using hc
      · cases h4 : a.raisesBeforeExec
        · cases h5 : execute_mirror_trade a ev
          · intro hc
            simpa [processAccount, leverageCallOf, h1, h2, h3, h4, h5] using hc
          · intro hc
            simpa [processAccount, leverageCallOf, h1, h2, h3, h4, h5] using hc
        · intro hc
          right
          simpa [processAccount, h1, h2, h3, h4] using hc

/-- Any leverage call present after a full pass comes from one of the
accounts of the pass or was already present. -/
theorem processPass_leverageCalls_mem (ev : MirrorEvent) :
    ∀ (accs : List Account) (st : PassState) (c : LeverageCall),
      c ∈ (processPass ev st accs).leverageCalls →
      (∃ a ∈ accs, c = leverageCallOf ev a) ∨ c ∈ st.leverageCalls
  | [], _, _, hc => Or.inr hc
  | a :: rest, st, c, hc => by
      have step := processPass_leverageCalls_mem ev rest (processAccount ev st a) c hc
      rcases step with ⟨x, hx, he⟩ | hmem
      · exact Or.inl ⟨x, List.mem_cons_of_mem a hx, he⟩
      · rcases processAccount_leverageCalls_mem ev st a c hmem with he | hold
        · exact Or.inl ⟨a, List.mem_cons_self a rest, he⟩
        · exact Or.inr hold

/- ### Claim theorems -/

/-- C1: for every (orderType, status) pair, `_should_mirror_event` returns
true if and only if the (case-normalized) status is NEW and the order type is
neither STOP_MARKET nor TAKE_PROFIT_MARKET; in particular MARKET mirrors only
on NEW, STOP_MARKET and TAKE_PROFIT_MARKET never mirror, and every other
(including unrecognized or absent) order type mirrors only on NEW. -/
theorem mirror_policy_characterization (order_type status : Option String) :
    shouldMirrorEvent order_type status =
      ((strUpper (status.getD "") == "NEW")
        && !(strUpper (order_type.getD "") == "STOP_MARKET")
        && !(strUpper (order_type.getD "") == "TAKE_PROFIT_MARKET")) := by
  simp only [shouldMirrorEvent]
  generalize strUpper (order_type.getD "") = ot
  generalize strUpper (status.getD "") = st
  by_cases h1 : ot = "MARKET"
  · subst h1
    simp
  · by_cases h2 : ot = "STOP_MARKET"
    · subst h2
      simp
    · by_cases h3 : ot = "TAKE_PROFIT_MARKET"
      · subst h3
        simp
      · have e2 : (ot == "STOP_MARKET") = false := beq_eq_false_iff_ne.mpr h2
        have e3 : (ot == "TAKE_PROFIT_MARKET") = false := beq_eq_false_iff_ne.mpr h3
        simp [h1, e2, e3]

/-- C2: in every loop body of the fanout pass, the MirrorKey of the (event,
target) pair is added to the in-memory dedup set exactly when the mirror
attempt for that target returned a truthy adapter response
(`mirrorSucceeded`); on a failed or raising attempt — `_execute_mirror_trade`
catches internal exceptions and returns None, and a body-level exception is
caught by the per-account handler — the dedup set is unchanged, so a later
duplicate event can retry that target. -/
theorem dedup_marked_iff_mirror_succeeded (ev : MirrorEvent) (st : PassState)
    (a : Account) :
    (processAccount ev st a).dedup =
      if mirrorSucceeded ev st.dedup a then mirrorKeyOf ev a :: st.dedup
      else st.dedup :=
  processAccount_dedup ev st a

/-- C3: delivering the same source event twice for the same target account
yields exactly one TradeLedger record: the first (successful, recorded) pass
adds one record, and the second pass finds the MirrorKey in the dedup set and
returns the state unchanged — no adapter attempt, no record, no counter
change. -/
theorem duplicate_event_single_ledger_record (ev : MirrorEvent) (st : PassState)
    (a : Account) (hs : mirrorSucceeded ev st.dedup a = true)
    (hdb : a.dbWriteFails = false) :
    processAccount ev (processAccount ev st a) a = processAccount ev st a ∧
    (∃ resp, execute_mirror_trade a ev = some resp ∧
      (processAccount ev st a).ledger = mkTradeRecord a ev resp :: st.ledger) ∧
    (processAccount ev st a).attempts = st.attempts + 1 := by
  have hs' := hs
  simp only [mirrorSucceeded, Bool.and_eq_true, Option.isSome_iff_exists] at hs'
  obtain ⟨hA, resp, h5⟩ := hs'
  have hdict : a.isDict = true := by
    have := hA
    simp only [mirrorAttemptReached, Bool.and_eq_true] at this
    exact this.1.1.1
  have hstep := processAccount_of_success ev st a resp hA h5
  refine ⟨?_, ⟨resp, h5, ?_⟩, ?_⟩
  · rw [hstep]
    apply processAccount_of_skip
    simp [dedupSkipped, hdict]
  · rw [hstep]
    simp [log_trade_to_database, hdb]
  · rw [hstep]

/-- Closed instance of C3: a concrete NEW MARKET event mirrored twice to one
healthy Binance account changes nothing on the second pass. -/
theorem duplicate_event_single_ledger_record_witness :
    mirrorSucceeded sampleMarketEvent emptyPass.dedup sampleAccount = true ∧
    sampleAccount.dbWriteFails = false ∧
    processAccount sampleMarketEvent
        (processAccount sampleMarketEvent emptyPass sampleAccount) sampleAccount =
      processAccount sampleMarketEvent emptyPass sampleAccount :=
  ⟨rfl, rfl,
    (duplicate_event_single_ledger_record sampleMarketEvent emptyPass
      sampleAccount rfl rfl).1⟩

/-- C4: a failure at one target does not prevent subsequent targets: whether
a later target (with a distinct MirrorKey) reaches its mirror attempt, and
whether it succeeds, is unchanged by everything the earlier targets did; the
loop is a fold that always continues past each account; and after the full
set is processed, `process_order_update` emits a summary whose two counters
tally exactly the per-account successes and failures of the pass. -/
theorem fanout_isolation_and_summary (ev : MirrorEvent) (st : PassState)
    (pre : List Account) (b : Account) (post : List Account)
    (hk : ∀ a ∈ pre, mirrorKeyOf ev a ≠ mirrorKeyOf ev b) :
    mirrorAttemptReached ev (processPass ev st pre).dedup b =
      mirrorAttemptReached ev st.dedup b ∧
    mirrorSucceeded ev (processPass ev st pre).dedup b =
      mirrorSucceeded ev st.dedup b ∧
    processPass ev st (pre ++ b :: post) =
      processPass ev (processAccount ev (processPass ev st pre) b) post ∧
    (∀ (dedup0 : List String) (ledger0 : List TradeRecord) (accs : List Account),
      shouldMirrorEvent ev.orderType ev.status = true → accs ≠ [] →
      (process_order_update ev dedup0 ledger0 (some accs)).2 =
        some { successful := (passTally ev dedup0 accs).1,
               total := accs.length,
               failed := (passTally ev dedup0 accs).2 }) := by
  have hmem := processPass_dedup_mem_other ev b pre st hk
  refine ⟨mirrorAttemptReached_congr ev _ _ b hmem,
    mirrorSucceeded_congr ev _ _ b hmem, ?_, ?_⟩
  · simp [processPass, List.foldl_append]
  · intro d0 l0 accs hpol hne
    have hc := processPass_counts ev accs { dedup := d0, ledger := l0 }
    simp only [process_order_update, hpol, Bool.not_true, Bool.false_eq_true,
      if_false, List.isEmpty_eq_true, hne, ite_false]
    rw [hc.1, hc.2]
    simp

/-- Closed instance of C4: with a failing first target and a healthy second
one, the pass still attempts both and the summary reports one success and
one failure. -/
theorem fanout_isolation_and_summary_witness :
    (process_order_update sampleMarketEvent [] []
        (some [sampleFailingAccount, sampleAccount])).2 =
      some { successful := 1, total := 2, failed := 1 } := by
  have h := fanout_isolation_and_summary sampleMarketEvent emptyPass
      [sampleFailingAccount] sampleAccount []
      (by
        intro a ha
        have hx : a = sampleFailingAccount := by simpa using ha
        subst hx
        decide)
  exact (h.2.2.2 [] [] [sampleFailingAccount, sampleAccount] (by decide)
    (by simp)).trans rfl

/-- C6: the symbol translator appends the target pair notation exactly when
the USDT quote suffix is present (so BTCUSDT becomes BTC/USDT:USDT), and
produces the InvalidSymbolFormat error exactly when it is absent. -/
theorem symbol_translation_roundtrip (s : String) :
    (strEndsWith s "USDT" = true →
      Convert_to_ccxt_symbol s = Except.ok (strDropRight s 4 ++ "/USDT:USDT")) ∧
    (strEndsWith s "USDT" = false →
      Convert_to_ccxt_symbol s =
        Except.error "InvalidSymbolFormat: symbol does not end with USDT") ∧
    Convert_to_ccxt_symbol "BTCUSDT" = Except.ok "BTC/USDT:USDT" := by
  refine ⟨?_, ?_, rfl⟩
  · intro h
    simp only [Convert_to_ccxt_symbol, h, Bool.not_true, Bool.false_eq_true,
      if_false]
    rw [String.append_assoc, String.append_assoc, String.append_assoc]
    rfl
  · intro h
    simp [Convert_to_ccxt_symbol, h]

/-- Closed instance of C6 at both a well-formed and a malformed symbol. -/
theorem symbol_translation_roundtrip_witness :
    Convert_to_ccxt_symbol "ETHUSDT" = Except.ok "ETH/USDT:USDT" ∧
    Convert_to_ccxt_symbol "BTCUSD" =
      Except.error "InvalidSymbolFormat: symbol does not end with USDT" :=
  ⟨((symbol_translation_roundtrip "ETHUSDT").1 rfl).trans rfl,
    (symbol_translation_roundtrip "BTCUSD").2.1 rfl⟩

/-- C7: a LIMIT mirror attempt with an absent or zero price fails for that
target only: the Binance adapter returns a failure without submitting
anything, the Phemex adapter likewise (the limit branch raises before any
ccxt call), and in the fanout loop a target whose adapter call fails is just
counted failed — its key is not marked, nothing else changes, and the fold
continues with the remaining targets. -/
theorem limit_missing_price_fails_target_only
    (venueB : BinanceOrderParams → Option BinanceResponse)
    (venueP : CcxtCall → Except String PhemexVenueOrder)
    (symbol side quantity : String) (price stop_price tif : Option String)
    (ro : Bool) (hp : pyStrTruthy price = false ∨ price = some "0") :
    execute_binance_trade venueB symbol side (some "LIMIT") quantity price
        stop_price tif ro = ([], none) ∧
    execute_phemex_trade venueP symbol side (some "LIMIT") quantity price
        stop_price tif = ([], none) ∧
    (∀ (ev : MirrorEvent) (st : PassState) (a : Account) (rest : List Account),
      mirrorAttemptReached ev st.dedup a = true →
      execute_mirror_trade a ev = none →
      processAccount ev st a =
        { st with leverageCalls := leverageCallOf ev a :: st.leverageCalls,
                  attempts := st.attempts + 1,
                  failed_mirrors := st.failed_mirrors + 1 } ∧
      processPass ev st (a :: rest) =
        processPass ev (processAccount ev st a) rest) := by
  have hnorm : (if pyStrTruthy price && !(price == some "0") then price else none)
      = none := by
    rcases hp with h | h
    · simp [h]
    · subst h
      simp
  refine ⟨?_, ?_, ?_⟩
  · rcases hp with h | h
    · simp [execute_binance_trade, h]
    · subst h
      simp [execute_binance_trade]
  · simp only [execute_phemex_trade, hnorm]
    cases hconv : Convert_to_ccxt_symbol symbol
    · simp [place_order_ccxt, hconv, phemexFailure]
    · simp [place_order_ccxt, hconv, convert_to_ccxt_order_type, pyStrTruthy,
        phemexFailure]
  · intro ev st a rest hA h5
    exact ⟨processAccount_of_failed_attempt ev st a hA h5, rfl⟩

/-- Closed instance of C7: a priceless LIMIT order is rejected by both
adapter models without any venue submission. -/
theorem limit_missing_price_fails_target_only_witness :
    execute_binance_trade venueAlwaysOkB "BTCUSDT" "BUY" (some "LIMIT") "0.01"
        none none (some "GTC") false = ([], none) ∧
    execute_phemex_trade venueAlwaysOkP "BTCUSDT" "BUY" (some "LIMIT") "0.01"
        none none (some "GTC") = ([], none) := by
  have h := limit_missing_price_fails_target_only venueAlwaysOkB venueAlwaysOkP
    "BTCUSDT" "BUY" "0.01" none none (some "GTC") false (Or.inl rfl)
  exact ⟨h.1, h.2.1⟩

/-- C8: when the mirror succeeded but the TradeLedger write fails, the
failure is swallowed inside `_log_trade_to_database`: the MirrorKey is still
marked seen, the mirror still counts as successful, the failure counter is
untouched — only the ledger append is missing. -/
theorem ledger_write_failure_keeps_mirror_success (ev : MirrorEvent)
    (st : PassState) (a : Account) (resp : MirrorResponse)
    (hA : mirrorAttemptReached ev st.dedup a = true)
    (h5 : execute_mirror_trade a ev = some resp)
    (hdb : a.dbWriteFails = true) :
    processAccount ev st a =
      { st with dedup := mirrorKeyOf ev a :: st.dedup,
                leverageCalls := leverageCallOf ev a :: st.leverageCalls,
                attempts := st.attempts + 1,
                successful_mirrors := st.successful_mirrors + 1 } ∧
    (processAccount ev st a).ledger = st.ledger ∧
    mirrorKeyOf ev a ∈ (processAccount ev st a).dedup ∧
    (processAccount ev st a).successful_mirrors = st.successful_mirrors + 1 ∧
    (processAccount ev st a).failed_mirrors = st.failed_mirrors := by
  have hstep := processAccount_of_success ev st a resp hA h5
  have hlog : log_trade_to_database a ev resp st.ledger = st.ledger := by
    simp [log_trade_to_database, hdb]
  rw [hstep, hlog]
  refine ⟨rfl, rfl, ?_, rfl, rfl⟩
  exact List.mem_cons_self _ _

/-- Closed instance of C8: a healthy account whose database write fails still
gets its key marked and counts as a success, with no ledger growth. -/
theorem ledger_write_failure_keeps_mirror_success_witness :
    (processAccount sampleMarketEvent emptyPass sampleDbFailAccount).ledger = [] ∧
    mirrorKeyOf sampleMarketEvent sampleDbFailAccount ∈
      (processAccount sampleMarketEvent emptyPass sampleDbFailAccount).dedup ∧
    (processAccount sampleMarketEvent emptyPass sampleDbFailAccount).successful_mirrors = 1 := by
  have h := ledger_write_failure_keeps_mirror_success sampleMarketEvent emptyPass
    sampleDbFailAccount { orderId := some "101" } rfl rfl rfl
  exact ⟨h.2.1, h.2.2.1, h.2.2.2.1⟩

/-- Counterexample to C5: on the Phemex/CCXT adapter, the unsupported order
type TRAILING_STOP_MARKET does not produce an UnsupportedOrderType failure —
`place_order_ccxt` falls into its generic `create_order` branch, submits one
order with the converted type, and reports success. -/
theorem phemex_unsupported_type_generic_submission_counterexample :
    (place_order_ccxt venueAlwaysOkP "BTCUSDT" "BUY" (some "TRAILING_STOP_MARKET")
        "1" none none none false).1 =
      [{ method := "create_order", symbol := "BTC/USDT:USDT",
         type := "trailing_stop", side := "buy", amount := "1",
         price := none, params := {} }] ∧
    (place_order_ccxt venueAlwaysOkP "BTCUSDT" "BUY" (some "TRAILING_STOP_MARKET")
        "1" none none none false).1 ≠ [] ∧
    (place_order_ccxt venueAlwaysOkP "BTCUSDT" "BUY" (some "TRAILING_STOP_MARKET")
        "1" none none none false).2.success = true := by
  refine ⟨rfl, ?_, rfl⟩
  decide

/-- C5 as amended: the Binance adapter does reject any order type other than
MARKET and LIMIT without submitting; the Phemex/CCXT adapter, however, for an
order type outside its special-cased branches, attempts a generic best-guess
`create_order` submission with the converted (lower-cased fallback) type
instead of returning an UnsupportedOrderType outcome. -/
theorem unsupported_order_type_handling_amended
    (venueB : BinanceOrderParams → Option BinanceResponse)
    (venueP : CcxtCall → Except String PhemexVenueOrder)
    (symbol base side quantity : String) (price stop_price tif : Option String)
    (ro : Bool) (ot : String)
    (hb1 : ot ≠ "MARKET") (hb2 : ot ≠ "LIMIT")
    (hp1 : convert_to_ccxt_order_type ot ≠ "market")
    (hp2 : convert_to_ccxt_order_type ot ≠ "limit")
    (hp3 : convert_to_ccxt_order_type ot ≠ "stop")
    (hp4 : convert_to_ccxt_order_type ot ≠ "stop_limit")
    (hp5 : ot ≠ "STOP_MARKET") (hp6 : ot ≠ "TAKE_PROFIT_MARKET")
    (hconv : Convert_to_ccxt_symbol symbol = Except.ok base) :
    execute_binance_trade venueB symbol side (some ot) quantity price
        stop_price tif ro = ([], none) ∧
    place_order_ccxt venueP symbol side (some ot) quantity price stop_price
        tif ro =
      runCcxtCall venueP
        { method := "create_order", symbol := base,
          type := convert_to_ccxt_order_type ot, side := strLower side,
          amount := quantity,
          price := if pyStrTruthy price then price else none,
          params :=
            (let p1 : CcxtParams := if ro then { reduceOnly := true } else {}
             if pyStrTruthy tif then
               { p1 with timeInForce := convert_to_ccxt_time_in_force tif }
             else p1) } := by
  constructor
  · have e1 : ((some ot : Option String) == some "MARKET") = false := by
      simp [hb1]
    have e2 : ((some ot : Option String) == some "LIMIT") = false := by
      simp [hb2]
    simp [execute_binance_trade, e1, e2]
  · have f1 : (convert_to_ccxt_order_type ot == "market") = false :=
      beq_eq_false_iff_ne.mpr hp1
    have f2 : (convert_to_ccxt_order_type ot == "limit") = false :=
      beq_eq_false_iff_ne.mpr hp2
    have f3 : (convert_to_ccxt_order_type ot == "stop") = false :=
      beq_eq_false_iff_ne.mpr hp3
    have f4 : (convert_to_ccxt_order_type ot == "stop_limit") = false :=
      beq_eq_false_iff_ne.mpr hp4
    have f5 : (ot == "STOP_MARKET") = false := beq_eq_false_iff_ne.mpr hp5
    have f6 : (ot == "TAKE_PROFIT_MARKET") = false := beq_eq_false_iff_ne.mpr hp6
    simp only [place_order_ccxt, hconv, f1, f2, f3, f4, f5, f6,
      Bool.false_eq_true, if_false]

/-- Closed instance of the amended C5 at the made-up order type FOO. -/
theorem unsupported_order_type_handling_amended_witness :
    execute_binance_trade venueAlwaysOkB "BTCUSDT" "SELL" (some "FOO") "2" none
        none none false = ([], none) ∧
    place_order_ccxt venueAlwaysOkP "BTCUSDT" "SELL" (some "FOO") "2" none none
        none false =
      runCcxtCall venueAlwaysOkP
        { method := "create_order", symbol := "BTC/USDT:USDT", type := "foo",
          side := "sell", amount := "2", price := none, params := {} } := by
  have h := unsupported_order_type_handling_amended venueAlwaysOkB venueAlwaysOkP
      "BTCUSDT" "BTC/USDT:USDT" "SELL" "2" none none none false "FOO"
      (by decide) (by decide) (by decide) (by decide) (by decide) (by decide)
      (by decide) (by decide) rfl
  exact ⟨h.1, h.2.trans rfl⟩

/-- Counterexample to C9: `BinanceClient.place_order` called with order type
MARKET and truthy price / stop-price arguments does include `price` and
`stopPrice` in the submitted parameter dict — the post-branch assignments run
for every order type. -/
theorem market_place_order_includes_supplied_price_counterexample :
    (binance_place_order_params "BTCUSDT" "BUY" "MARKET" "0.01"
        (some "50000") (some "49000") (some "GTC") false).price = some "50000" ∧
    (binance_place_order_params "BTCUSDT" "BUY" "MARKET" "0.01"
        (some "50000") (some "49000") (some "GTC") false).stopPrice =
      some "49000" :=
  ⟨rfl, rfl⟩

/-- C9 as amended: in the mirror path `_execute_binance_trade` calls
`place_order` for MARKET with no price/stop-price arguments, so the submitted
parameter set is exactly symbol, side, type and quantity (no time-in-force,
price, stop price or reduce-only); `place_order` itself, however, appends
`price`/`stopPrice` whenever truthy arguments are supplied, even for MARKET
(see the counterexample). -/
theorem market_mirror_submission_exact_params
    (venue : BinanceOrderParams → Option BinanceResponse)
    (symbol side quantity : String) (price stop_price tif : Option String)
    (ro : Bool) :
    (execute_binance_trade venue symbol side (some "MARKET") quantity price
        stop_price tif ro).1 =
      [{ symbol := some symbol, side := some side, type := some "MARKET",
         quantity := some quantity, timeInForce := none, price := none,
         stopPrice := none, reduceOnly := false }] ∧
    binance_place_order_params symbol side "MARKET" quantity none none tif false =
      { symbol := some symbol, side := some side, type := some "MARKET",
        quantity := some quantity } := by
  constructor
  · by_cases hq : quantity = ""
    · subst hq
      simp [execute_binance_trade, binance_place_order, binance_place_order_params,
        pyStrTruthy]
    · have hq2 : (quantity == "") = false := beq_eq_false_iff_ne.mpr hq
      simp [execute_binance_trade, binance_place_order, binance_place_order_params,
        pyStrTruthy, hq2]
  · by_cases hq : quantity = ""
    · subst hq
      simp [binance_place_order_params, pyStrTruthy]
    · have hq2 : (quantity == "") = false := beq_eq_false_iff_ne.mpr hq
      simp [binance_place_order_params, pyStrTruthy, hq2]

/-- C10: the leverage applied before order placement is the constant 10:
`BinanceClient.get_leverage` returns 10 unconditionally, every `set_leverage`
call made during a pass driven by `handle_order_update` (which hardcodes
`leverage = 10`; the Phemex branch passes the literal 10) carries the value
10, and the target account's configured leverage default is never consulted —
the loop body is invariant under changing it. -/
theorem leverage_hardcoded_ten :
    (∀ s, binance_get_leverage s = 10) ∧
    (∀ (symbol side : String) (order_type : Option String) (quantity : String)
       (price stop_price : Option String) (status : Option String)
       (order_id : Nat) (tif : Option String) (ro : Bool)
       (dedup0 : List String) (ledger0 : List TradeRecord)
       (accounts : Option (List Account)) (c : LeverageCall),
       c ∈ (handle_order_update symbol side order_type quantity price stop_price
              status order_id tif ro dedup0 ledger0 accounts).1.leverageCalls →
       c.leverage = 10) ∧
    (∀ (ev : MirrorEvent) (st : PassState) (a : Account) (v : Nat),
       processAccount ev st { a with leverageDefault := v } =
         processAccount ev st a) := by
  refine ⟨fun _ => rfl, ?_, fun _ _ _ _ => rfl⟩
  intro symbol side order_type quantity price stop_price status order_id tif ro
    dedup0 ledger0 accounts c hc
  unfold handle_order_update at hc
  by_cases hpol : shouldMirrorEvent order_type status = true
  · simp only [hpol, Bool.not_true, Bool.false_eq_true, if_false] at hc
    unfold process_order_update at hc
    by_cases hpol2 : shouldMirrorEvent order_type status
    · simp only [hpol2, Bool.not_true, Bool.false_eq_true, if_false] at hc
      cases accounts with
      | none => simp at hc
      | some accs =>
          by_cases he : accs.isEmpty
          · simp [he] at hc
          · simp only [he, Bool.false_eq_true, if_false] at hc
            rcases processPass_leverageCalls_mem _ accs _ c hc with ⟨a, _, hca⟩ | hz
            · subst hca
              cases hx : (a.exchange_type == "binance") <;>
                simp [leverageCallOf, hx]
            · simp at hz
    · exact absurd hpol hpol2
  · simp only [Bool.not_eq_true] at hpol
    simp [hpol] at hc

/-- Closed instance of C10: the single leverage call of a concrete pass
carries the value 10. -/
theorem leverage_hardcoded_ten_witness :
    ({ exchange_type := "binance", symbol := "BTCUSDT", leverage := 10 } :
      LeverageCall).leverage = 10 := by
  apply leverage_hardcoded_ten.2.1 "BTCUSDT" "BUY" (some "MARKET") "0.01" none
    none (some "NEW") 7 (some "GTC") false [] [] (some [sampleAccount])
  have h : (handle_order_update "BTCUSDT" "BUY" (some "MARKET") "0.01" none
      none (some "NEW") 7 (some "GTC") false [] []
      (some [sampleAccount])).1.leverageCalls =
      [{ exchange_type := "binance", symbol := "BTCUSDT", leverage := 10 }] := rfl
  rw [h]
  exact List.mem_singleton.mpr rfl

end MirrorBot
